import Mathlib

/-!
Verification of the request-execution engine of the `rquest` HTTP client
(src/client/client.rs and the middleware it drives), as a shallow embedding.

The embedding follows the monolithic implementation in
`src/client/client.rs` (the version the specification cites).  Code of the
repository that is not among the provided sources (the redirect policy module,
`into_url::try_uri`, `config::RequestConfig`, `decoder::Accepts`) is modelled
from the specification; each such definition carries a doc comment starting
with `Modelled from the spec:`.  External collaborators (the `url` crate, the
cookie-store implementation) are modelled by small executable stand-ins, since
the spec treats them as out-of-scope interfaces.
-/

namespace Rquest

/-- Duration in an abstract unit (models `std::time::Duration`). -/
abbrev Duration := Nat

/-- Body bytes (models `bytes::Bytes`). -/
abbrev Bytes := List Nat

/-- Header names, canonical lowercase as in the `http` crate. -/
abbrev HeaderName := String

/-- Header values; modelled as strings (Lean strings are valid UTF-8, which
matches the values this development manipulates). -/
abbrev HeaderValue := String

/-- A header multimap, in insertion order (models `http::HeaderMap`).  Only
membership, per-name value lists and first-value lookup are load-bearing
here; the relative order of unrelated names is not. -/
abbrev HeaderMap := List (HeaderName × HeaderValue)

/-- Does the map contain at least one value for name `n`
(models `HeaderMap::contains_key`)? -/
def HeaderMap.contains_key (m : HeaderMap) (n : HeaderName) : Bool :=
  m.any (fun p => p.1 == n)

/-- All values for name `n`, in order (models `HeaderMap::get_all`). -/
def HeaderMap.get_all (m : HeaderMap) (n : HeaderName) : List HeaderValue :=
  (m.filter (fun p => p.1 == n)).map (fun p => p.2)

/-- First value for name `n` (models `HeaderMap::get`). -/
def HeaderMap.get_first (m : HeaderMap) (n : HeaderName) : Option HeaderValue :=
  (m.find? (fun p => p.1 == n)).map (fun p => p.2)

/-- Add one more value for `n` (models `HeaderMap::append`). -/
def HeaderMap.append (m : HeaderMap) (n : HeaderName) (v : HeaderValue) : HeaderMap :=
  m ++ [(n, v)]

/-- Drop every value of `n` (models `HeaderMap::remove`). -/
def HeaderMap.remove (m : HeaderMap) (n : HeaderName) : HeaderMap :=
  m.filter (fun p => !(p.1 == n))

/-- Replace all values of `n` by the single value `v`
(models `HeaderMap::insert`). -/
def HeaderMap.insert (m : HeaderMap) (n : HeaderName) (v : HeaderValue) : HeaderMap :=
  HeaderMap.remove m n ++ [(n, v)]

/-- Helper for `HeaderMap.keys`: first occurrence of each name. -/
def dedupAux : List HeaderName → List HeaderName → List HeaderName
  | [], _ => []
  | n :: rest, seen =>
      if n ∈ seen then dedupAux rest seen else n :: dedupAux rest (n :: seen)

/-- The distinct names of the map, in first-occurrence order
(models `HeaderMap::keys`). -/
def HeaderMap.keys (m : HeaderMap) : List HeaderName :=
  dedupAux (m.map (fun p => p.1)) []

-- Header-name constants used by the client (the `http::header` constants).
def TRANSFER_ENCODING : HeaderName := "transfer-encoding"
def CONTENT_ENCODING : HeaderName := "content-encoding"
def CONTENT_TYPE : HeaderName := "content-type"
def CONTENT_LENGTH : HeaderName := "content-length"
def LOCATION : HeaderName := "location"
def REFERER : HeaderName := "referer"
def COOKIE : HeaderName := "cookie"
def SET_COOKIE : HeaderName := "set-cookie"
def AUTHORIZATION : HeaderName := "authorization"
def PROXY_AUTHORIZATION : HeaderName := "proxy-authorization"
def WWW_AUTHENTICATE : HeaderName := "www-authenticate"
def ACCEPT_ENCODING : HeaderName := "accept-encoding"
def RANGE : HeaderName := "range"

/-- Request methods (models `http::Method`; the variants the client logic
distinguishes). -/
inductive Method
  | GET | HEAD | POST | PUT | DELETE | PATCH | OPTIONS | TRACE
deriving DecidableEq, Repr

/-- A parsed URL (models the parts of `url::Url` the engine reads: scheme,
host, port, path, query, fragment; userinfo appears only in `make_referer`). -/
structure Url where
  scheme : String
  host : String
  port : Option Nat := none
  path : String := "/"
  query : Option String := none
  fragment : Option String := none
  username : String := ""
  password : Option String := none
deriving DecidableEq, Repr

/-- Split a character list at the first occurrence of `c`; the second
component is `none` when `c` does not occur. -/
def breakAtChar (c : Char) : List Char → List Char × Option (List Char)
  | [] => ([], none)
  | x :: xs =>
      if x = c then ([], some xs)
      else
        let r := breakAtChar c xs
        (x :: r.1, r.2)

/-- Is the first list a leading segment of the second? -/
def hasPrefixChars : List Char → List Char → Bool
  | [], _ => true
  | _ :: _, [] => false
  | a :: as, b :: bs => a == b && hasPrefixChars as bs

/-- The numeric value of a decimal digit. -/
def digitVal (ch : Char) : Option Nat :=
  if 48 ≤ ch.toNat ∧ ch.toNat ≤ 57 then some (ch.toNat - 48) else none

/-- Parse a nonempty decimal numeral. -/
def charsToNat? (l : List Char) : Option Nat :=
  if l.isEmpty then none
  else l.foldl (fun acc ch => acc.bind fun n => (digitVal ch).map fun d => n * 10 + d)
    (some 0)

/-- Parse `host[:port]`; fails on an empty host or an unreadable port.
Stand-in for the `url` crate's authority parsing (external collaborator). -/
def parseHostPort (l : List Char) : Option (String × Option Nat) :=
  let hp := breakAtChar ':' l
  if hp.1.isEmpty then none
  else
    match hp.2 with
    | none => some (⟨hp.1⟩, none)
    | some pcs =>
        match charsToNat? pcs with
        | some n => some (⟨hp.1⟩, some n)
        | none => none

/-- Parse an absolute http/https URL.  Stand-in for the `url` crate's parser
(external collaborator); fails on a missing scheme or empty host. -/
def parseAbsoluteUrl (s : String) : Option Url :=
  let l := s.data
  let sp : Option (String × List Char) :=
    if hasPrefixChars "http://".data l then some ("http", l.drop 7)
    else if hasPrefixChars "https://".data l then some ("https", l.drop 8)
    else none
  match sp with
  | none => none
  | some (scheme, rest) =>
    let (rest, frag) := breakAtChar '#' rest
    let (rest, query) := breakAtChar '?' rest
    let (hostport, pathrest) := breakAtChar '/' rest
    match parseHostPort hostport with
    | none => none
    | some (host, port) =>
        some { scheme, host, port,
               path := ⟨'/' :: pathrest.getD []⟩,
               query := query.map (fun q => (⟨q⟩ : String)),
               fragment := frag.map (fun f => (⟨f⟩ : String)) }

/-- Directory part of a path, up to and including the last slash. -/
def dirOfChars (l : List Char) : List Char :=
  (l.reverse.dropWhile (fun c => !(c == '/'))).reverse

/-- Resolve a Location string against a base URL.  Stand-in for
`url::Url::join` (external collaborator): absolute URLs replace the base,
absolute paths replace the path, other strings resolve relative to the
base's directory; an unparsable absolute URL fails. -/
def Url.join (base : Url) (input : String) : Option Url :=
  let l := input.data
  if hasPrefixChars "http://".data l || hasPrefixChars "https://".data l then
    parseAbsoluteUrl input
  else if hasPrefixChars "//".data l then
    parseAbsoluteUrl ⟨base.scheme.data ++ ':' :: l⟩
  else
    match l with
    | [] => some { base with fragment := none }
    | c :: _ =>
      let (rest, frag) := breakAtChar '#' l
      let pq := breakAtChar '?' rest
      let query := pq.2.map (fun x => (⟨x⟩ : String))
      let fragment := frag.map (fun x => (⟨x⟩ : String))
      if c = '/' then
        some { base with path := ⟨pq.1⟩, query, fragment }
      else
        some { base with path := ⟨dirOfChars base.path.data ++ pq.1⟩, query, fragment }

/-- Serialize a URL back to a string (stand-in for `Url::as_str`). -/
def Url.serialize (u : Url) : String :=
  let userinfo :=
    if u.username = "" && u.password = none then ""
    else u.username ++ (match u.password with | some p => ":" ++ p | none => "") ++ "@"
  let port := match u.port with | some p => ":" ++ toString p | none => ""
  let query := match u.query with | some q => "?" ++ q | none => ""
  let frag := match u.fragment with | some f => "#" ++ f | none => ""
  u.scheme ++ "://" ++ userinfo ++ u.host ++ port ++ u.path ++ query ++ frag

/-- An `http::Uri`; the engine only ever converts a `Url` to it and back. -/
abbrev Uri := Url

/-- Modelled from the spec: `into_url::try_uri` (src/into_url.rs is not among
the provided sources) converts a parsed `Url` into an `http::Uri`, failing
exactly when the URL is not a valid URI; modelled as requiring a nonempty
scheme and host. -/
def try_uri (url : Url) : Option Uri :=
  if url.scheme ≠ "" ∧ url.host ≠ "" then some url else none

/-- A request body (models `Body` in src/client/body.rs usage: empty,
in-memory reusable bytes, or a one-shot stream). -/
inductive Body
  | empty
  | reusable (bytes : Bytes)
  | streaming
deriving DecidableEq, Repr

/-- Split a body into its reusable snapshot (if any) and the body to send
(models `Body::try_reuse`): in-memory bytes are reusable, empty bodies are
trivially reusable, streams are one-shot. -/
def Body.try_reuse : Body → Option Bytes × Body
  | .empty => (some [], .empty)
  | .reusable b => (some b, .reusable b)
  | .streaming => (none, .streaming)

/-- HTTP/2 stream/connection error reasons (models `http2::Reason`). -/
inductive H2Reason
  | NO_ERROR
  | PROTOCOL_ERROR
  | REFUSED_STREAM
  | CANCEL
  | otherReason (code : Nat)
deriving DecidableEq, Repr

/-- An `http2::Error` as observed through its probes. -/
structure H2Error where
  is_go_away : Bool
  is_reset : Bool
  is_remote : Bool
  reason : Option H2Reason
deriving DecidableEq, Repr

/-- The cause one level below the dispatch error; only an `http2::Error`
downcast is inspected by the retry logic. -/
inductive ErrCause
  | h2 (e : H2Error)
  | otherCause
deriving DecidableEq, Repr

/-- The error one `source()` below the boxed hyper error. -/
structure InnerHyperError where
  cause : Option ErrCause
deriving DecidableEq, Repr

/-- A transport error returned by the dispatcher (the boxed hyper legacy
error polled out of `in_flight`); `source` is its `Error::source()`. -/
structure TransportError where
  source : Option InnerHyperError
deriving DecidableEq, Repr

/-- Classify an error as safely retryable (src/client/client.rs 2205-2232):
pop the legacy error, look at its cause, and accept exactly a remote GOAWAY
with reason NO_ERROR or a remote RST_STREAM with reason REFUSED_STREAM. -/
def is_retryable_error (err : TransportError) : Bool :=
  match err.source with
  | none => false
  | some inner =>
    match inner.cause with
    | some (.h2 e) =>
        (e.is_go_away && e.is_remote && e.reason == some .NO_ERROR)
        || (e.is_reset && e.is_remote && e.reason == some .REFUSED_STREAM)
    | _ => false

namespace redirect

/-- Modelled from the spec: redirect-policy failures; the default policy
yields `Error(TooManyRedirects)` past its hop limit (§4.4). -/
inductive PolicyError
  | tooManyRedirects
deriving DecidableEq, Repr

/-- Causes carried by a `Redirect` error: a policy error, or the https-only
scheme rejection of the next URL (src/client/client.rs 2131-2136). -/
inductive Cause
  | policy (e : PolicyError)
  | badScheme (url : Url)
deriving DecidableEq, Repr

/-- Outcome of a redirect-policy check (models `redirect::ActionKind`). -/
inductive ActionKind
  | follow
  | stop
  | toError (e : Cause)
deriving DecidableEq, Repr

/-- Modelled from the spec: the redirect policy (src/redirect.rs is not among
the provided sources).  "Policy check (user-supplied) receives: new status,
previous method, next URL, previous method, URL history. Outcomes: `Follow`,
`Stop`, `Error(e)`"; a `limited` policy follows up to its hop limit and then
errors with TooManyRedirects; `Policy::none()` — the constructor named at
src/client/client.rs:220 — follows no redirect at all (`Stop`). -/
inductive Policy
  | limited (max : Nat)
  | none
deriving DecidableEq, Repr

/-- Modelled from the spec: the policy check (§4.4).  The URL history passed
by the caller already includes the URL of the hop being decided. -/
def Policy.check (p : Policy) (_status : Nat) (_method : Method) (_next : Url)
    (_previous_method : Method) (previous : List Url) : ActionKind :=
  match p with
  | .limited max => if previous.length > max then .toError (.policy .tooManyRedirects) else .follow
  | .none => .stop

/-- Is the next URL of a different origin (scheme, host or port) from the
previous one? -/
def crossOrigin (next previous : Url) : Bool :=
  next.scheme != previous.scheme || next.host != previous.host || next.port != previous.port

/-- Modelled from the spec: `Policy::remove_sensitive_headers`
(src/redirect.rs is not among the provided sources): "on redirect to a
different origin (scheme/host/port), strip `Authorization`, `Cookie`,
`Proxy-Authorization`, `WWW-Authenticate`" (§4.4); the previous origin is the
last entry of the URL history. -/
def Policy.remove_sensitive_headers (headers : HeaderMap) (next : Url)
    (previous : List Url) : HeaderMap :=
  match previous.getLast? with
  | Option.none => headers
  | Option.some prev =>
      if crossOrigin next prev then
        HeaderMap.remove (HeaderMap.remove (HeaderMap.remove
          (HeaderMap.remove headers AUTHORIZATION) COOKIE) PROXY_AUTHORIZATION) WWW_AUTHENTICATE
      else headers

end redirect

/-- Errors surfaced to the caller, with the URL they are annotated with
(models the `error::*` constructors used by the engine). -/
inductive ErrorModel
  | timedOut (url : Url)
  | transport (err : TransportError) (url : Url)
  | urlBadScheme (url : Url)
  | urlBadUri (url : Url)
  | redirectError (cause : redirect.Cause) (url : Url)
deriving DecidableEq, Repr

/-- Modelled from the spec: the decoder `Accepts` flags (src/client/decoder.rs
is not among the provided sources): which content decoders are enabled. -/
structure Accepts where
  gzip : Bool := true
  brotli : Bool := true
  zstd : Bool := true
  deflate : Bool := true
deriving DecidableEq, Repr

/-- Modelled from the spec: `Accepts::as_str` renders the enabled decoders
"comma-joined in insertion order" (§4.8), and is `None` when no decoder is
enabled. -/
def Accepts.as_str (a : Accepts) : Option String :=
  let parts := (if a.gzip then ["gzip"] else []) ++ (if a.brotli then ["br"] else [])
    ++ (if a.zstd then ["zstd"] else []) ++ (if a.deflate then ["deflate"] else [])
  if parts.isEmpty then none else some (String.intercalate ", " parts)

/-- Default `Accepts`: every compiled-in decoder enabled. -/
def Accepts.defaultAccepts : Accepts := {}

/-- A cookie store handle (models the `cookie::CookieStore` trait object):
`cookies` answers the Cookie header values for a URL; `set_cookies` is a
mutation of shared state outside the snapshot and is recorded as an effect
(`responseCookieWrite`) rather than threaded through. -/
structure CookieStore where
  cookies : Url → Option (List HeaderValue)

/-- A proxy entry (models the parts of `Proxy` the engine calls; the matcher
internals live outside the provided sources and are abstracted as data). -/
structure Proxy where
  maybe_http_auth : Bool := false
  is_match : Uri → Bool := fun _ => false
  http_basic_auth : Uri → Option HeaderValue := fun _ => none
  http_headers : Option (List (HeaderName × HeaderValue)) := none
  intercept : Uri → Option Nat := fun _ => none

/-- A network scheme (local bind / proxy scheme bundle); its internals are
opaque to the claims, `default` marks "not overridden per request". -/
inductive NetworkScheme
  | defaultScheme
  | built (base : Nat) (proxy : Option Nat)
deriving DecidableEq, Repr

/-- TLS configuration as carried in the client state; the fields hot-swap
reads or overrides (src/client/client.rs 1825-1847); `id` stands for the
remaining profile knobs. -/
structure TlsConfig where
  id : Nat := 0
  alpn_protos : Nat := 0
  min_tls_version : Option Nat := none
  max_tls_version : Option Nat := none
deriving DecidableEq, Repr

/-- The shared client state snapshot (models `ClientRef`,
src/client/client.rs 1576-1602; the hyper/pool handle is represented by the
configuration it carries). -/
structure ClientRef where
  accepts : Accepts
  cookie_store : Option CookieStore
  headers : HeaderMap
  headers_order : Option (List HeaderName)
  redirect : redirect.Policy
  referer : Bool
  total_timeout : Option Duration
  read_timeout : Option Duration
  https_only : Bool
  http2_max_retry_count : Nat
  proxies : List Proxy
  proxies_maybe_http_auth : Bool
  network_scheme : Nat
  alpn_protos : Option Nat
  tls_sni : Bool := true
  verify_hostname : Bool := true
  cert_verification : Bool := true
  min_tls_version : Option Nat := none
  max_tls_version : Option Nat := none
  http1_config : Nat := 0
  http2_config : Nat := 0
  tls_config : TlsConfig := {}

/-- Per-request extensions bag; the engine reads the per-request timeout
(`RequestConfig<RequestTimeout>` — the same key backs the total- and
read-timeout lookups at src/client/client.rs 1586-1587). -/
structure Extensions where
  timeout : Option Duration := none
deriving DecidableEq, Repr

/-- Modelled from the spec: `RequestConfig::fetch` (src/config.rs is not
among the provided sources): "Per-request extensions override client-level
defaults" (§4.6) — the extension value, else the client default (the same
`get(..).or(default)` shape as src/client/middleware/timeout/mod.rs 46-59). -/
def RequestConfig.fetch (client_default : Option Duration) (ext : Extensions) :
    Option Duration :=
  ext.timeout.or client_default

/-- A public request as fed to `execute` (the tuple of `Request::pieces`). -/
structure Request where
  method : Method
  url : Url
  headers : HeaderMap := []
  headers_order : Option (List HeaderName) := none
  body : Option Body := none
  extensions : Extensions := {}
  version : Option Nat := none
  redirect : Option redirect.Policy := none
  allow_compression : Bool := true
  network_scheme : NetworkScheme := .defaultScheme

/-- The request handed to the hyper dispatcher (models `InnerRequest`). -/
structure InnerRequest where
  uri : Uri
  method : Method
  headers : HeaderMap
  headers_order : Option (List HeaderName)
  version : Option Nat
  extensions : Extensions
  network_scheme : NetworkScheme
  body : Body

/-- The in-flight request state (models `PendingRequest`,
src/client/client.rs 1868-1891; the timeout `Sleep` futures are represented
by the fetched durations, their firing by `PollInput`). -/
structure PendingRequest where
  method : Method
  url : Url
  headers : HeaderMap
  headers_order : Option (List HeaderName)
  body : Option (Option Bytes)
  version : Option Nat
  extensions : Extensions
  urls : List Url
  http2_retry_count : Nat
  http2_max_retry_count : Nat
  redirect : Option redirect.Policy
  network_scheme : NetworkScheme
  client : ClientRef
  total_timeout : Option Duration
  read_timeout : Option Duration

/-- The future returned by `execute` (models `Pending`). -/
inductive Pending
  | error (e : ErrorModel)
  | request (state : PendingRequest) (in_flight : InnerRequest)

/-- Append every cookie the store holds for `url` as a `Cookie` header
(src/client/client.rs 2246-2257). -/
def add_cookie_header (store : CookieStore) (headers : HeaderMap) (url : Url) : HeaderMap :=
  match store.cookies url with
  | some vs => vs.foldl (fun h v => HeaderMap.append h COOKIE v) headers
  | none => headers

/-- Insert an `Accept-Encoding` header for the enabled decoders when the
request carries neither `Accept-Encoding` nor `Range`
(src/client/client.rs 2265-2276; the name keeps the source's spelling). -/
def add_accpet_encoding_header (accepts : Accepts) (headers : HeaderMap) : HeaderMap :=
  match accepts.as_str with
  | some v =>
      if !(HeaderMap.contains_key headers ACCEPT_ENCODING)
          && !(HeaderMap.contains_key headers RANGE) then
        HeaderMap.insert headers ACCEPT_ENCODING v
      else headers
  | none => headers

/-- Merge the client's default headers into the request headers without
overwriting already-present names (src/client/client.rs 1395-1403). -/
def mergeDefaultHeaders (headers defaults : HeaderMap) : HeaderMap :=
  (HeaderMap.keys defaults).foldl
    (fun h n =>
      if HeaderMap.contains_key h n then h
      else (HeaderMap.get_all defaults n).foldl (fun h2 v => HeaderMap.append h2 n v) h)
    headers

/-- The outbound cookie attachment of `execute_request`
(src/client/client.rs 1405-1411): only when a store is attached and the
request does not already carry a `Cookie` header. -/
def cookieInitialStep (store : Option CookieStore) (headers : HeaderMap) (url : Url) :
    HeaderMap :=
  match store with
  | some st =>
      if !(HeaderMap.contains_key headers COOKIE) then add_cookie_header st headers url
      else headers
  | none => headers

/-- Proxy basic-auth header injection (src/client/client.rs 1604-1637). -/
def ClientRef.proxy_auth (c : ClientRef) (dst : Uri) (headers : HeaderMap) : HeaderMap :=
  if !c.proxies_maybe_http_auth then headers
  else if dst.scheme ≠ "http" then headers
  else if HeaderMap.contains_key headers PROXY_AUTHORIZATION then headers
  else
    match c.proxies.find? (fun p => p.is_match dst) with
    | none => headers
    | some p =>
        let headers :=
          match p.http_basic_auth dst with
          | some v => HeaderMap.insert headers PROXY_AUTHORIZATION v
          | none => headers
        match p.http_headers with
        | some hs => headers ++ hs
        | none => headers

/-- Resolve the network scheme for a request
(src/client/client.rs 1639-1655): an explicit per-request scheme wins, else
the client's builder plus the last intercepting proxy. -/
def ClientRef.network_scheme_for (c : ClientRef) (uri : Uri) (dflt : NetworkScheme) :
    NetworkScheme :=
  match dflt with
  | .defaultScheme => .built c.network_scheme ((c.proxies.filterMap (fun p => p.intercept uri)).getLast?)
  | other => other

/-- Build and dispatch a request (models `Client::execute_request`,
src/client/client.rs 1366-1492): scheme checks, default-header merge, cookie
attachment, accept-encoding, Uri conversion, body-reuse split, timeout
fetches, proxy auth, header order, network scheme; the returned pending
state captures the loaded snapshot `client`. -/
def Client.execute_request (client : ClientRef) (req : Request) : Pending :=
  let scheme := req.url.scheme
  if scheme ≠ "http" ∧ scheme ≠ "https" then .error (.urlBadScheme req.url)
  else if client.https_only ∧ scheme ≠ "https" then .error (.urlBadScheme req.url)
  else
    let headers := mergeDefaultHeaders req.headers client.headers
    let headers := cookieInitialStep client.cookie_store headers req.url
    let headers :=
      if req.allow_compression then add_accpet_encoding_header client.accepts headers
      else headers
    match try_uri req.url with
    | none => .error (.urlBadUri req.url)
    | some uri =>
      let rb : Option (Option Bytes) × Body :=
        match req.body with
        | some b => (some (Body.try_reuse b).1, (Body.try_reuse b).2)
        | none => (none, Body.empty)
      let total_timeout := RequestConfig.fetch client.total_timeout req.extensions
      let read_timeout := RequestConfig.fetch client.read_timeout req.extensions
      let headers := ClientRef.proxy_auth client uri headers
      let headers_order := req.headers_order.or client.headers_order
      let network_scheme := ClientRef.network_scheme_for client uri req.network_scheme
      .request
        { method := req.method, url := req.url, headers, headers_order, body := rb.1,
          version := req.version, extensions := req.extensions, urls := [],
          http2_retry_count := 0, http2_max_retry_count := client.http2_max_retry_count,
          redirect := req.redirect, network_scheme, client, total_timeout, read_timeout }
        { uri, method := req.method, headers, headers_order, version := req.version,
          extensions := req.extensions, network_scheme, body := rb.2 }

/-- Attempt the in-place HTTP/2 retry (models `PendingRequest::retry_error`,
src/client/client.rs 1919-1969): classify the error, require a reusable body
snapshot, enforce the retry cap, increment the counter, rebuild the request.
Returns the rebuilt in-flight request (when the retry happens) together with
the possibly-mutated state. -/
def PendingRequest.retry_error (s : PendingRequest) (err : TransportError) :
    Option InnerRequest × PendingRequest :=
  if !(is_retryable_error err) then (none, s)
  else
    match s.body with
    | some none => (none, s)
    | _ =>
      let body : Body :=
        match s.body with
        | some (some b) => Body.reusable b
        | _ => Body.empty
      if s.http2_retry_count ≥ s.http2_max_retry_count then (none, s)
      else
        let s1 := { s with http2_retry_count := s.http2_retry_count + 1 }
        match try_uri s1.url with
        | none => (none, s1)
        | some uri =>
            (some { uri, method := s1.method, headers := s1.headers,
                    headers_order := s1.headers_order, version := s1.version,
                    extensions := s1.extensions, network_scheme := s1.network_scheme,
                    body },
             s1)

/-- A response as polled out of the dispatcher. -/
structure HttpResponse where
  status : Nat
  headers : HeaderMap
deriving DecidableEq, Repr

/-- The response handed back to the caller (models `Response::new`,
src/client/client.rs 2193-2199: the hyper response, the final URL, the
accepts flags and the read timeout for the body). -/
structure FinalResponse where
  status : Nat
  headers : HeaderMap
  url : Url
  accepts : Accepts
  read_timeout : Option Duration
deriving DecidableEq, Repr

/-- Wrap the polled response for the caller. -/
def finalResponse (s : PendingRequest) (r : HttpResponse) : FinalResponse :=
  { status := r.status, headers := r.headers, url := s.url,
    accepts := s.client.accepts, read_timeout := s.read_timeout }

/-- The `Set-Cookie` offer made to the store on a response
(src/client/client.rs 2033-2042): all `Set-Cookie` values, for the request's
current URL, only when a store is attached and at least one value exists.
The store mutation itself is shared state outside the snapshot; this records
the offered values. -/
def responseCookieWrite (s : PendingRequest) (r : HttpResponse) :
    Option (List HeaderValue × Url) :=
  match s.client.cookie_store with
  | some _ =>
      let cs := HeaderMap.get_all r.headers SET_COOKIE
      if cs.isEmpty then none else some (cs, s.url)
  | none => none

/-- The removal loop over TRANSFER_ENCODING, CONTENT_ENCODING, CONTENT_TYPE
and CONTENT_LENGTH (src/client/client.rs 2049-2056). -/
def stripPayloadHeaders (m : HeaderMap) : HeaderMap :=
  HeaderMap.remove (HeaderMap.remove (HeaderMap.remove
    (HeaderMap.remove m TRANSFER_ENCODING) CONTENT_ENCODING) CONTENT_TYPE) CONTENT_LENGTH

/-- Status-dependent preparation of the next hop
(src/client/client.rs 2044-2073): 301/302/303 drop the body, strip the four
payload headers and coerce the method to GET unless it is GET or HEAD;
307/308 redirect only when the body snapshot is reusable (or absent); other
statuses do not redirect.  Returns the mutated state and `should_redirect`. -/
def redirectStatusPrep (s : PendingRequest) (status : Nat) : PendingRequest × Bool :=
  if status = 301 ∨ status = 302 ∨ status = 303 then
    let headers := stripPayloadHeaders s.headers
    let method := if s.method = Method.GET ∨ s.method = Method.HEAD then s.method else Method.GET
    ({ s with body := none, headers, method }, true)
  else if status = 307 ∨ status = 308 then
    (s, match s.body with
        | some (some _) => true
        | none => true
        | some none => false)
  else (s, false)

/-- Resolve the `Location` header into the next URL
(src/client/client.rs 2075-2101): absent header, undecodable value, a failed
join against the current URL, or a result that is no valid `http::Uri` all
yield `none` (and the redirect is skipped). -/
def locationUrl (current : Url) (raw : Option HeaderValue) : Option Url :=
  match raw with
  | none => none
  | some v =>
    match Url.join current v with
    | none => none
    | some u => if (try_uri u).isSome then some u else none

/-- Build the Referer value for the next hop
(src/client/client.rs 2234-2244): omitted on an https→http downgrade,
otherwise the previous URL with credentials and fragment stripped. -/
def make_referer (next previous : Url) : Option HeaderValue :=
  if next.scheme = "http" ∧ previous.scheme = "https" then none
  else some (Url.serialize { previous with username := "", password := none, fragment := none })

/-- The referer insertion of the redirect path
(src/client/client.rs 2103-2107). -/
def refererStep (c : ClientRef) (loc current : Url) (headers : HeaderMap) : HeaderMap :=
  if c.referer then
    match make_referer loc current with
    | some v => HeaderMap.insert headers REFERER v
    | none => headers
  else headers

/-- The cookie re-attachment of the redirect path
(src/client/client.rs 2160-2164): unconditional when a store is attached. -/
def cookieStep (c : ClientRef) (url : Url) (headers : HeaderMap) : HeaderMap :=
  match c.cookie_store with
  | some store => add_cookie_header store headers url
  | none => headers

/-- One step of the poll loop. -/
inductive StepResult
  | failed (e : ErrorModel)
  | done (resp : FinalResponse)
  | retry (state : PendingRequest) (next : InnerRequest)
  | redirect (state : PendingRequest) (next : InnerRequest)

/-- The `Follow` arm of the redirect engine
(src/client/client.rs 2124-2182): scheme validation, https-only enforcement,
sensitive-header stripping against the URL history, Uri conversion, body
rebuild from the snapshot, cookie re-attachment, and the new in-flight
request. -/
def followAction (s : PendingRequest) (loc : Url) : StepResult :=
  if loc.scheme ≠ "http" ∧ loc.scheme ≠ "https" then .failed (.urlBadScheme loc)
  else if s.client.https_only ∧ loc.scheme ≠ "https" then
    .failed (.redirectError (.badScheme loc) loc)
  else
    let s := { s with url := loc }
    let headers := redirect.Policy.remove_sensitive_headers s.headers s.url s.urls
    match try_uri s.url with
    | none => .failed (.urlBadUri s.url)
    | some uri =>
      let body : Body :=
        match s.body with
        | some (some b) => Body.reusable b
        | _ => Body.empty
      let headers := cookieStep s.client s.url headers
      .redirect { s with headers }
        { uri, method := s.method, headers, headers_order := s.headers_order,
          version := s.version, extensions := s.extensions,
          network_scheme := s.network_scheme, body }

/-- The redirect engine on a response whose status asked for a redirect
(src/client/client.rs 2075-2191): resolve `Location` (returning the response
unchanged when that fails), insert the Referer, push the current URL onto
the history, consult the request-level policy or else the client policy, and
act on `Follow` / `Stop` / `Error`. -/
def handleRedirect (s : PendingRequest) (r : HttpResponse) (previous_method : Method) :
    StepResult :=
  match locationUrl s.url (HeaderMap.get_first r.headers LOCATION) with
  | none => .done (finalResponse s r)
  | some loc =>
    let s := { s with headers := refererStep s.client loc s.url s.headers }
    let s := { s with urls := s.urls ++ [s.url] }
    let action := redirect.Policy.check (s.redirect.getD s.client.redirect)
      r.status s.method loc previous_method s.urls
    match action with
    | .follow => followAction s loc
    | .stop => .done (finalResponse s r)
    | .toError e => .failed (.redirectError e s.url)

/-- What the poll wakes up on: a fired total- or read-timeout sleep, or the
in-flight future resolving to an error or a response. -/
inductive PollInput
  | totalTimeout
  | readTimeout
  | transportError (e : TransportError)
  | response (r : HttpResponse)

/-- One iteration of `PendingRequest::poll`
(src/client/client.rs 1998-2203): either timeout firing fails the request
with `TimedOut` annotated with the URL; a transport error is retried when
`retry_error` says so and surfaced otherwise; a response goes through the
redirect engine or is returned. -/
def pollStep (s : PendingRequest) (input : PollInput) : StepResult :=
  match input with
  | .totalTimeout => .failed (.timedOut s.url)
  | .readTimeout => .failed (.timedOut s.url)
  | .transportError e =>
    match PendingRequest.retry_error s e with
    | (some req, s1) => .retry s1 req
    | (none, _) => .failed (.transport e s.url)
  | .response r =>
    let prep := redirectStatusPrep s r.status
    if prep.2 then handleRedirect prep.1 r s.method
    else .done (finalResponse prep.1 r)

/-- The contents of the client's `ArcSwap<ClientRef>` state cell. -/
abbrev StateCell := ClientRef

/-- Take a snapshot of the cell (models `ArcSwap::load`). -/
def ArcSwap.load (cell : StateCell) : ClientRef := cell

/-- Publish a new snapshot (models `ArcSwap::store`); the previous snapshot
value is unaffected — holders keep it. -/
def ArcSwap.store (_ : StateCell) (newVal : ClientRef) : StateCell := newVal

/-- An emulation bundle applied by hot-reconfiguration
(models `EmulationProvider`). -/
structure EmulationProvider where
  default_headers : Option HeaderMap := none
  headers_order : Option (List HeaderName) := none
  http1_config : Option Nat := none
  http2_config : Option Nat := none
  tls_config : Option TlsConfig := none

/-- A pending client update (models `ClientUpdate`,
src/client/client.rs 1676-1853): a copy of the current snapshot being
edited, plus an optional emulation bundle. -/
structure ClientUpdate where
  current : ClientRef
  emulation : Option EmulationProvider := none

/-- Start an update from the current snapshot (models `Client::update`). -/
def Client.update (cell : StateCell) : ClientUpdate :=
  { current := ArcSwap.load cell, emulation := none }

/-- Edit the headers (models `ClientUpdate::headers`). -/
def ClientUpdate.headersUpdate (u : ClientUpdate) (f : HeaderMap → HeaderMap) : ClientUpdate :=
  { u with current := { u.current with headers := f u.current.headers } }

/-- Replace the header order (models `ClientUpdate::headers_order`). -/
def ClientUpdate.headersOrder (u : ClientUpdate) (order : List HeaderName) : ClientUpdate :=
  { u with current := { u.current with headers_order := some order } }

/-- Attach a cookie store (models `ClientUpdate::cookie_provider`). -/
def ClientUpdate.cookie_provider (u : ClientUpdate) (store : CookieStore) : ClientUpdate :=
  { u with current := { u.current with cookie_store := some store } }

/-- Replace the proxies (models `ClientUpdate::proxies`). -/
def ClientUpdate.proxies (u : ClientUpdate) (proxies : List Proxy) : ClientUpdate :=
  { u with current := { u.current with
      proxies_maybe_http_auth := proxies.any (fun p => p.maybe_http_auth),
      proxies := proxies } }

/-- Clear the proxies (models `ClientUpdate::unset_proxies`). -/
def ClientUpdate.unset_proxies (u : ClientUpdate) : ClientUpdate :=
  { u with current := { u.current with proxies := [], proxies_maybe_http_auth := false } }

/-- Request an emulation swap (models `ClientUpdate::emulation`). -/
def ClientUpdate.emulationUpdate (u : ClientUpdate) (em : EmulationProvider) : ClientUpdate :=
  { u with emulation := some em }

/-- The derived state `apply` publishes (src/client/client.rs 1803-1852):
the edited copy, with the emulation bundle folded in — headers and order
swapped, H1/H2 configs set, and the TLS configuration rebuilt with the
client-level ALPN and TLS-version overrides kept on top. -/
def ClientUpdate.applyState (u : ClientUpdate) : ClientRef :=
  let current := u.current
  match u.emulation with
  | none => current
  | some em =>
    let current :=
      match em.default_headers with
      | some h => { current with headers := h }
      | none => current
    let current :=
      match em.headers_order with
      | some o => { current with headers_order := some o }
      | none => current
    let current :=
      match em.http1_config with
      | some c => { current with http1_config := c }
      | none => current
    let current :=
      match em.http2_config with
      | some c => { current with http2_config := c }
      | none => current
    match em.tls_config with
    | some tls =>
      let tls :=
        match current.alpn_protos with
        | some a => { tls with alpn_protos := a }
        | none => tls
      let tls :=
        if current.min_tls_version.isSome then { tls with min_tls_version := current.min_tls_version }
        else tls
      let tls :=
        if current.max_tls_version.isSome then { tls with max_tls_version := current.max_tls_version }
        else tls
      { current with tls_config := tls }
    | none => current

/-- Publish the update into the cell (models `ClientUpdate::apply`,
src/client/client.rs 1805-1852: a single atomic store of the derived
state). -/
def ClientUpdate.apply (u : ClientUpdate) (cell : StateCell) : StateCell :=
  ArcSwap.store cell u.applyState

/-- The relevant configuration fields of `ClientBuilder`'s `Config`. -/
structure Config where
  headers : HeaderMap
  headers_order : Option (List HeaderName)
  accepts : Accepts
  redirect_policy : redirect.Policy
  referer : Bool
  timeout : Option Duration
  read_timeout : Option Duration
  https_only : Bool
  http2_max_retry_count : Nat
  cookie_store : Option CookieStore
  proxies : List Proxy
  auto_sys_proxy : Bool
  network_scheme : Nat
  alpn_protos : Option Nat

/-- The builder defaults (models `ClientBuilder::new`,
src/client/client.rs 201-252): note `redirect_policy` is `Policy::none()`
(line 220) and `http2_max_retry_count` is 2 (line 237). -/
def ClientBuilder.new : Config :=
  { headers := [], headers_order := none, accepts := Accepts.defaultAccepts,
    redirect_policy := redirect.Policy.none, referer := true, timeout := none,
    read_timeout := none, https_only := false, http2_max_retry_count := 2,
    cookie_store := none, proxies := [], auto_sys_proxy := true,
    network_scheme := 0, alpn_protos := none }

/-- The system proxy pushed by `build` when auto-detection is on; inert in
this model (its contents come from the environment). -/
def systemProxy : Proxy := {}

/-- Assemble the client state from a configuration (the `ClientRef`
construction inside `ClientBuilder::build`, src/client/client.rs 351-378). -/
def Config.build (c : Config) : ClientRef :=
  let proxies := if c.auto_sys_proxy then c.proxies ++ [systemProxy] else c.proxies
  { accepts := c.accepts, cookie_store := c.cookie_store, headers := c.headers,
    headers_order := c.headers_order, redirect := c.redirect_policy,
    referer := c.referer, total_timeout := c.timeout, read_timeout := c.read_timeout,
    https_only := c.https_only, http2_max_retry_count := c.http2_max_retry_count,
    proxies := proxies,
    proxies_maybe_http_auth := proxies.any (fun p => p.maybe_http_auth),
    network_scheme := c.network_scheme, alpn_protos := c.alpn_protos }

/-!  Basic lemmas about the header-map operations.  -/

theorem contains_key_append_entry (m : HeaderMap) (n n' : HeaderName) (v : HeaderValue) :
    HeaderMap.contains_key (HeaderMap.append m n' v) n =
      (HeaderMap.contains_key m n || (n' == n)) := by
  simp [HeaderMap.contains_key, HeaderMap.append]

theorem contains_key_concat (m m2 : HeaderMap) (n : HeaderName) :
    HeaderMap.contains_key (m ++ m2) n =
      (HeaderMap.contains_key m n || HeaderMap.contains_key m2 n) := by
  simp [HeaderMap.contains_key]

theorem contains_key_remove_other (m : HeaderMap) (n n' : HeaderName) (h : n ≠ n') :
    HeaderMap.contains_key (HeaderMap.remove m n') n = HeaderMap.contains_key m n := by
  induction m with
  | nil => rfl
  | cons p t ih =>
    by_cases h1 : p.1 = n' <;> by_cases h2 : p.1 = n <;>
      simp_all [HeaderMap.contains_key, HeaderMap.remove, List.filter_cons]

theorem contains_key_insert_other (m : HeaderMap) (n n' : HeaderName) (v : HeaderValue)
    (h : n ≠ n') :
    HeaderMap.contains_key (HeaderMap.insert m n' v) n = HeaderMap.contains_key m n := by
  have hf : (n' == n) = false := beq_eq_false_iff_ne.mpr (Ne.symm h)
  rw [HeaderMap.insert, contains_key_concat, contains_key_remove_other m n n' h]
  simp [HeaderMap.contains_key, hf]

theorem contains_key_insert_self (m : HeaderMap) (n : HeaderName) (v : HeaderValue) :
    HeaderMap.contains_key (HeaderMap.insert m n v) n = true := by
  simp [HeaderMap.insert, contains_key_concat, HeaderMap.contains_key]

theorem get_all_concat (m m2 : HeaderMap) (n : HeaderName) :
    HeaderMap.get_all (m ++ m2) n = HeaderMap.get_all m n ++ HeaderMap.get_all m2 n := by
  simp [HeaderMap.get_all]

theorem get_all_append_other (m : HeaderMap) (n n' : HeaderName) (v : HeaderValue)
    (h : n' ≠ n) :
    HeaderMap.get_all (HeaderMap.append m n' v) n = HeaderMap.get_all m n := by
  simp [HeaderMap.append, get_all_concat, HeaderMap.get_all, h]

theorem get_all_remove_self (m : HeaderMap) (n : HeaderName) :
    HeaderMap.get_all (HeaderMap.remove m n) n = [] := by
  induction m with
  | nil => rfl
  | cons p t ih =>
    by_cases h : p.1 = n <;> simp_all [HeaderMap.get_all, HeaderMap.remove, List.filter_cons]

theorem get_all_remove_other (m : HeaderMap) (n n' : HeaderName) (h : n ≠ n') :
    HeaderMap.get_all (HeaderMap.remove m n') n = HeaderMap.get_all m n := by
  induction m with
  | nil => rfl
  | cons p t ih =>
    by_cases h1 : p.1 = n' <;> by_cases h2 : p.1 = n <;>
      simp_all [HeaderMap.get_all, HeaderMap.remove, List.filter_cons]

theorem get_all_insert_other (m : HeaderMap) (n n' : HeaderName) (v : HeaderValue)
    (h : n ≠ n') :
    HeaderMap.get_all (HeaderMap.insert m n' v) n = HeaderMap.get_all m n := by
  have hf : (n' == n) = false := beq_eq_false_iff_ne.mpr (Ne.symm h)
  rw [HeaderMap.insert, get_all_concat, get_all_remove_other m n n' h]
  simp [HeaderMap.get_all, hf]

theorem contains_key_remove_self (m : HeaderMap) (n : HeaderName) :
    HeaderMap.contains_key (HeaderMap.remove m n) n = false := by
  induction m with
  | nil => rfl
  | cons p t ih =>
    by_cases h1 : p.1 = n <;>
      simp_all [HeaderMap.contains_key, HeaderMap.remove, List.filter_cons]

/-!  Lemmas about the redirect-path header pipeline.  -/

theorem foldl_cookie_get_all (vs : List HeaderValue) (m : HeaderMap) :
    HeaderMap.get_all (vs.foldl (fun h v => HeaderMap.append h COOKIE v) m) COOKIE =
      HeaderMap.get_all m COOKIE ++ vs := by
  induction vs generalizing m with
  | nil => simp
  | cons v t ih =>
    simp only [List.foldl_cons]
    rw [ih]
    simp [HeaderMap.append, get_all_concat, HeaderMap.get_all]

theorem foldl_cookie_contains_other (vs : List HeaderValue) (m : HeaderMap)
    (n : HeaderName) (h : n ≠ COOKIE) :
    HeaderMap.contains_key (vs.foldl (fun h v => HeaderMap.append h COOKIE v) m) n =
      HeaderMap.contains_key m n := by
  induction vs generalizing m with
  | nil => rfl
  | cons v t ih =>
    simp only [List.foldl_cons]
    rw [ih]
    have hf : (COOKIE == n) = false := beq_eq_false_iff_ne.mpr (Ne.symm h)
    simp [HeaderMap.append, contains_key_concat, HeaderMap.contains_key, hf]

theorem add_cookie_header_get_all (store : CookieStore) (m : HeaderMap) (u : Url) :
    HeaderMap.get_all (add_cookie_header store m u) COOKIE =
      HeaderMap.get_all m COOKIE ++ (store.cookies u).getD [] := by
  unfold add_cookie_header
  cases hc : store.cookies u with
  | none => simp
  | some vs => simp [foldl_cookie_get_all]

theorem add_cookie_header_contains_other (store : CookieStore) (m : HeaderMap) (u : Url)
    (n : HeaderName) (h : n ≠ COOKIE) :
    HeaderMap.contains_key (add_cookie_header store m u) n = HeaderMap.contains_key m n := by
  unfold add_cookie_header
  cases hc : store.cookies u with
  | none => rfl
  | some vs => simp [foldl_cookie_contains_other vs m n h]

theorem cookieStep_get_all (c : ClientRef) (u : Url) (m : HeaderMap) :
    HeaderMap.get_all (cookieStep c u m) COOKIE =
      HeaderMap.get_all m COOKIE ++
        (match c.cookie_store with
         | some store => (store.cookies u).getD []
         | none => []) := by
  unfold cookieStep
  cases c.cookie_store with
  | none => simp
  | some store => simp [add_cookie_header_get_all]

theorem cookieStep_contains_other (c : ClientRef) (u : Url) (m : HeaderMap)
    (n : HeaderName) (h : n ≠ COOKIE) :
    HeaderMap.contains_key (cookieStep c u m) n = HeaderMap.contains_key m n := by
  unfold cookieStep
  cases c.cookie_store with
  | none => rfl
  | some store => simp [add_cookie_header_contains_other store m u n h]

theorem refererStep_contains_other (c : ClientRef) (loc cur : Url) (m : HeaderMap)
    (n : HeaderName) (h : n ≠ REFERER) :
    HeaderMap.contains_key (refererStep c loc cur m) n = HeaderMap.contains_key m n := by
  unfold refererStep
  by_cases hr : c.referer = true
  · simp only [hr, if_true]
    cases make_referer loc cur with
    | none => rfl
    | some v => simp [contains_key_insert_other m n REFERER v h]
  · simp [hr]

theorem refererStep_get_all_other (c : ClientRef) (loc cur : Url) (m : HeaderMap)
    (n : HeaderName) (h : n ≠ REFERER) :
    HeaderMap.get_all (refererStep c loc cur m) n = HeaderMap.get_all m n := by
  unfold refererStep
  by_cases hr : c.referer = true
  · simp only [hr, if_true]
    cases make_referer loc cur with
    | none => rfl
    | some v => simp [get_all_insert_other m n REFERER v h]
  · simp [hr]

/-- The sensitive-header strip, resolved against a nonempty history. -/
theorem remove_sensitive_headers_last (m : HeaderMap) (next : Url) (l : List Url) (prev : Url) :
    redirect.Policy.remove_sensitive_headers m next (l ++ [prev]) =
      (if redirect.crossOrigin next prev then
        HeaderMap.remove (HeaderMap.remove (HeaderMap.remove
          (HeaderMap.remove m AUTHORIZATION) COOKIE) PROXY_AUTHORIZATION) WWW_AUTHENTICATE
       else m) := by
  unfold redirect.Policy.remove_sensitive_headers
  simp

/-!  Field-preservation facts about `redirectStatusPrep`.  -/

theorem redirectStatusPrep_url (s : PendingRequest) (st : Nat) :
    (redirectStatusPrep s st).1.url = s.url := by
  unfold redirectStatusPrep
  split
  · rfl
  split <;> rfl

theorem redirectStatusPrep_urls (s : PendingRequest) (st : Nat) :
    (redirectStatusPrep s st).1.urls = s.urls := by
  unfold redirectStatusPrep
  split
  · rfl
  split <;> rfl

theorem redirectStatusPrep_client (s : PendingRequest) (st : Nat) :
    (redirectStatusPrep s st).1.client = s.client := by
  unfold redirectStatusPrep
  split
  · rfl
  split <;> rfl

theorem redirectStatusPrep_redirect (s : PendingRequest) (st : Nat) :
    (redirectStatusPrep s st).1.redirect = s.redirect := by
  unfold redirectStatusPrep
  split
  · rfl
  split <;> rfl

theorem redirectStatusPrep_headers_order (s : PendingRequest) (st : Nat) :
    (redirectStatusPrep s st).1.headers_order = s.headers_order := by
  unfold redirectStatusPrep
  split
  · rfl
  split <;> rfl

/-- Inversion of the poll step: when a response leads to a followed redirect,
reconstruct the resolved location and the shape of the next request. -/
theorem pollStep_redirect_inv (s s' : PendingRequest) (r : HttpResponse) (req : InnerRequest)
    (h : pollStep s (.response r) = .redirect s' req) :
    ∃ loc : Url,
      locationUrl s.url (HeaderMap.get_first r.headers LOCATION) = some loc ∧
      (redirectStatusPrep s r.status).2 = true ∧
      s'.url = loc ∧
      s'.urls = s.urls ++ [s.url] ∧
      s'.client = s.client ∧
      s'.headers = req.headers ∧
      req.method = (redirectStatusPrep s r.status).1.method ∧
      req.headers_order = s.headers_order ∧
      req.body = (match (redirectStatusPrep s r.status).1.body with
                  | some (some b) => Body.reusable b
                  | _ => Body.empty) ∧
      req.headers =
        cookieStep s.client loc
          (redirect.Policy.remove_sensitive_headers
            (refererStep s.client loc s.url (redirectStatusPrep s r.status).1.headers)
            loc (s.urls ++ [s.url])) := by
  simp only [pollStep] at h
  by_cases hp : (redirectStatusPrep s r.status).2 = true
  · rw [if_pos hp] at h
    unfold handleRedirect at h
    rw [redirectStatusPrep_url] at h
    cases hl : locationUrl s.url (HeaderMap.get_first r.headers LOCATION) with
    | none => rw [hl] at h; simp at h
    | some loc =>
      rw [hl] at h
      dsimp only at h
      split at h
      · unfold followAction at h
        split at h
        · simp at h
        · split at h
          · simp at h
          · dsimp only at h
            cases ht : try_uri loc with
            | none => rw [ht] at h; simp at h
            | some uri =>
              rw [ht] at h
              dsimp only at h
              injection h with h1 h2
              subst h1
              subst h2
              refine ⟨loc, rfl, hp, rfl, ?_, ?_, ?_, rfl, ?_, rfl, ?_⟩
              · simp [redirectStatusPrep_urls, redirectStatusPrep_url]
              · simp [redirectStatusPrep_client]
              · rfl
              · simp [redirectStatusPrep_headers_order]
              · simp [redirectStatusPrep_client, redirectStatusPrep_urls,
                  redirectStatusPrep_url]
      · simp at h
      · simp at h
  · rw [if_neg hp] at h
    simp at h

/-- Inversion of `execute_request`: the successfully dispatched pending state
records the loaded snapshot and the values computed from it. -/
theorem execute_request_inv (c : ClientRef) (req : Request) (s : PendingRequest)
    (i : InnerRequest) (h : Client.execute_request c req = .request s i) :
    s.client = c ∧ s.url = req.url ∧ s.method = req.method ∧ s.urls = [] ∧
    s.http2_retry_count = 0 ∧ s.http2_max_retry_count = c.http2_max_retry_count ∧
    s.redirect = req.redirect ∧ s.extensions = req.extensions ∧
    s.total_timeout = RequestConfig.fetch c.total_timeout req.extensions ∧
    s.read_timeout = RequestConfig.fetch c.read_timeout req.extensions ∧
    i.method = req.method ∧ i.headers = s.headers := by
  simp only [Client.execute_request] at h
  split at h
  · simp at h
  · split at h
    · simp at h
    · split at h
      · simp at h
      · injection h with h1 h2
        subst h1
        subst h2
        exact ⟨rfl, rfl, rfl, rfl, rfl, rfl, rfl, rfl, rfl, rfl, rfl, rfl⟩

/-- Bool-level shape of a retryable transport error, as a proposition. -/
theorem is_retryable_error_iff (err : TransportError) :
    is_retryable_error err = true ↔
      ∃ e : H2Error,
        err.source = some { cause := some (.h2 e) } ∧
        ((e.is_go_away = true ∧ e.is_remote = true ∧ e.reason = some .NO_ERROR) ∨
         (e.is_reset = true ∧ e.is_remote = true ∧ e.reason = some .REFUSED_STREAM)) := by
  unfold is_retryable_error
  rcases err with ⟨src⟩
  rcases src with _ | ⟨cause⟩
  · simp
  · rcases cause with _ | c
    · simp
    · rcases c with e | _
      · simp only [Bool.or_eq_true, Bool.and_eq_true, beq_iff_eq]
        constructor
        · intro hx
          exact ⟨e, rfl, by tauto⟩
        · rintro ⟨e2, he, hx⟩
          have : e2 = e := by
            injection he with he2
            injection he2 with he3
            injection he3 with he4
            injection he4 with he5
            exact he5.symm
          subst this
          tauto
      · simp

/-- The retry decision, characterized (provided the current URL is a valid
Uri, an invariant of every reachable pending state). -/
theorem retry_error_isSome_iff (s : PendingRequest) (err : TransportError)
    (hu : (try_uri s.url).isSome = true) :
    (PendingRequest.retry_error s err).1.isSome = true ↔
      (is_retryable_error err = true ∧ s.body ≠ some none ∧
       s.http2_retry_count < s.http2_max_retry_count) := by
  unfold PendingRequest.retry_error
  by_cases hr : is_retryable_error err = true
  · simp only [hr, Bool.not_true, Bool.false_eq_true, if_false]
    rcases hb : s.body with _ | ob
    · simp only []
      by_cases hc : s.http2_retry_count ≥ s.http2_max_retry_count
      · simp [hc, Nat.not_lt_of_ge hc]
      · rcases hu2 : try_uri s.url with _ | uri
        · rw [hu2] at hu; simp at hu
        · simp [hc, hu2, Nat.lt_of_not_ge hc]
    · rcases ob with _ | b
      · simp
      · simp only []
        by_cases hc : s.http2_retry_count ≥ s.http2_max_retry_count
        · simp [hc, Nat.not_lt_of_ge hc]
        · rcases hu2 : try_uri s.url with _ | uri
          · rw [hu2] at hu; simp at hu
          · simp [hc, hu2, Nat.lt_of_not_ge hc]
  · simp [hr]

/-- When the retry happens, the request is rebuilt from the pending state and
its reusable body snapshot, and the counter is bumped. -/
theorem retry_error_rebuild (s : PendingRequest) (err : TransportError)
    (req : InnerRequest) (s2 : PendingRequest)
    (h : PendingRequest.retry_error s err = (some req, s2)) :
    req.method = s.method ∧ req.headers = s.headers ∧
    req.headers_order = s.headers_order ∧
    req.body = (match s.body with
                | some (some b) => Body.reusable b
                | _ => Body.empty) ∧
    s2.http2_retry_count = s.http2_retry_count + 1 := by
  unfold PendingRequest.retry_error at h
  split at h
  · simp at h
  · rcases hb : s.body with _ | ob
    · rw [hb] at h
      dsimp only at h
      split at h
      · simp at h
      · split at h
        · simp at h
        · simp only [Prod.mk.injEq, Option.some.injEq] at h
          obtain ⟨h1, h2⟩ := h
          subst h1
          subst h2
          refine ⟨rfl, rfl, rfl, ?_, rfl⟩
          simp [hb]
    · rcases ob with _ | b
      · rw [hb] at h
        dsimp only at h
        simp at h
      · rw [hb] at h
        dsimp only at h
        split at h
        · simp at h
        · split at h
          · simp at h
          · simp only [Prod.mk.injEq, Option.some.injEq] at h
            obtain ⟨h1, h2⟩ := h
            subst h1
            subst h2
            refine ⟨rfl, rfl, rfl, ?_, rfl⟩
            simp [hb]

/-- A non-retried transport error is surfaced at once, annotated with the
request URL. -/
theorem pollStep_transport_surfaced (s : PendingRequest) (err : TransportError)
    (h : (PendingRequest.retry_error s err).1 = none) :
    pollStep s (.transportError err) = .failed (.transport err s.url) := by
  rcases hres : PendingRequest.retry_error s err with ⟨o, s1⟩
  rw [hres] at h
  simp only at h
  subst h
  simp only [pollStep, hres]

/-- A successful retry replaces the in-flight future. -/
theorem pollStep_transport_retry (s : PendingRequest) (err : TransportError)
    (req : InnerRequest) (s1 : PendingRequest)
    (h : PendingRequest.retry_error s err = (some req, s1)) :
    pollStep s (.transportError err) = .retry s1 req := by
  simp only [pollStep, h]

/-- The sensitive-header strip never touches other names. -/
theorem remove_sensitive_contains_other (m : HeaderMap) (next : Url) (l : List Url)
    (n : HeaderName) (h1 : n ≠ AUTHORIZATION) (h2 : n ≠ COOKIE)
    (h3 : n ≠ PROXY_AUTHORIZATION) (h4 : n ≠ WWW_AUTHENTICATE) :
    HeaderMap.contains_key (redirect.Policy.remove_sensitive_headers m next l) n =
      HeaderMap.contains_key m n := by
  unfold redirect.Policy.remove_sensitive_headers
  cases l.getLast? with
  | none => rfl
  | some prev =>
    by_cases hx : redirect.crossOrigin next prev = true
    · simp only [hx, if_true]
      rw [contains_key_remove_other _ _ _ h4, contains_key_remove_other _ _ _ h3,
        contains_key_remove_other _ _ _ h2, contains_key_remove_other _ _ _ h1]
    · simp [hx]

/-- The status-preparation step never touches `Cookie` values. -/
theorem redirectStatusPrep_get_all_cookie (s : PendingRequest) (st : Nat) :
    HeaderMap.get_all (redirectStatusPrep s st).1.headers COOKIE =
      HeaderMap.get_all s.headers COOKIE := by
  unfold redirectStatusPrep
  split
  · show HeaderMap.get_all (stripPayloadHeaders s.headers) COOKIE = _
    unfold stripPayloadHeaders
    rw [get_all_remove_other _ _ _ (by decide), get_all_remove_other _ _ _ (by decide),
      get_all_remove_other _ _ _ (by decide), get_all_remove_other _ _ _ (by decide)]
  · split <;> rfl

/-- Each of the four stripped names is absent afterwards. -/
theorem stripPayloadHeaders_contains (m : HeaderMap) :
    HeaderMap.contains_key (stripPayloadHeaders m) TRANSFER_ENCODING = false ∧
    HeaderMap.contains_key (stripPayloadHeaders m) CONTENT_ENCODING = false ∧
    HeaderMap.contains_key (stripPayloadHeaders m) CONTENT_TYPE = false ∧
    HeaderMap.contains_key (stripPayloadHeaders m) CONTENT_LENGTH = false := by
  unfold stripPayloadHeaders
  refine ⟨?_, ?_, ?_, ?_⟩
  · rw [contains_key_remove_other _ TRANSFER_ENCODING CONTENT_LENGTH (by decide),
      contains_key_remove_other _ TRANSFER_ENCODING CONTENT_TYPE (by decide),
      contains_key_remove_other _ TRANSFER_ENCODING CONTENT_ENCODING (by decide),
      contains_key_remove_self]
  · rw [contains_key_remove_other _ CONTENT_ENCODING CONTENT_LENGTH (by decide),
      contains_key_remove_other _ CONTENT_ENCODING CONTENT_TYPE (by decide),
      contains_key_remove_self]
  · rw [contains_key_remove_other _ CONTENT_TYPE CONTENT_LENGTH (by decide),
      contains_key_remove_self]
  · rw [contains_key_remove_self]

/-!  Concrete fixtures used by the witnesses, and total projections out of
`Pending` and `StepResult`.  -/

/-- Extract the pending state of a dispatched request. -/
def pendingStateOf (p : Pending) (dflt : PendingRequest) : PendingRequest :=
  match p with
  | .request s _ => s
  | .error _ => dflt

/-- Extract the in-flight request of a dispatched request. -/
def pendingInnerOf (p : Pending) (dflt : InnerRequest) : InnerRequest :=
  match p with
  | .request _ i => i
  | .error _ => dflt

/-- Extract the continuation state of a retry or redirect step. -/
def stepStateOf (r : StepResult) (dflt : PendingRequest) : PendingRequest :=
  match r with
  | .redirect s _ => s
  | .retry s _ => s
  | _ => dflt

/-- Extract the new outbound request of a retry or redirect step. -/
def stepRequestOf (r : StepResult) (dflt : InnerRequest) : InnerRequest :=
  match r with
  | .redirect _ i => i
  | .retry _ i => i
  | _ => dflt

def dummyUrl : Url := { scheme := "http", host := "a.example", path := "/a" }

def dummyClient : ClientRef :=
  { accepts := {}, cookie_store := none, headers := [], headers_order := none,
    redirect := redirect.Policy.none, referer := true, total_timeout := none,
    read_timeout := none, https_only := false, http2_max_retry_count := 2,
    proxies := [], proxies_maybe_http_auth := false, network_scheme := 0,
    alpn_protos := none }

def dummyPending : PendingRequest :=
  { method := .GET, url := dummyUrl, headers := [], headers_order := none,
    body := none, version := none, extensions := {}, urls := [],
    http2_retry_count := 0, http2_max_retry_count := 2, redirect := none,
    network_scheme := .defaultScheme, client := dummyClient, total_timeout := none,
    read_timeout := none }

def dummyInner : InnerRequest :=
  { uri := dummyUrl, method := .GET, headers := [], headers_order := none,
    version := none, extensions := {}, network_scheme := .defaultScheme,
    body := .empty }

/-!  The claims.  -/

/-- C1: a request dispatched under a client-state snapshot A keeps A: the
pending request stores the snapshot loaded at dispatch time (its redirect
policy, headers, cookie store, timeouts, proxies and TLS/emulation
configuration come from it, and `pollStep` is a function of the pending
state alone), while publishing a new state B with `ClientUpdate.apply` only
replaces the cell contents, so the next `execute_request` after `apply`
captures B. -/
theorem claim1_snapshot_isolation (cell : StateCell) (u : ClientUpdate)
    (req req2 : Request) (s : PendingRequest) (i : InnerRequest)
    (h : Client.execute_request (ArcSwap.load cell) req = .request s i) :
    s.client = ArcSwap.load cell ∧
    s.http2_max_retry_count = (ArcSwap.load cell).http2_max_retry_count ∧
    s.total_timeout = RequestConfig.fetch (ArcSwap.load cell).total_timeout req.extensions ∧
    ArcSwap.load (ClientUpdate.apply u cell) = u.applyState ∧
    (∀ s2 i2,
      Client.execute_request (ArcSwap.load (ClientUpdate.apply u cell)) req2 = .request s2 i2 →
      s2.client = u.applyState) := by
  obtain ⟨h1, _, _, _, _, h6, _, _, h9, _⟩ := execute_request_inv _ _ _ _ h
  exact ⟨h1, h6, h9, rfl, fun s2 i2 h2 => (execute_request_inv _ _ _ _ h2).1⟩

def w1upd : ClientUpdate :=
  ClientUpdate.emulationUpdate (Client.update dummyClient)
    { default_headers := some [("user-agent", "x")] }

def w1req : Request := { method := .GET, url := dummyUrl }

/-- Witness for C1 at a concrete client, request and update. -/
theorem claim1_witness :
    (pendingStateOf (Client.execute_request (ArcSwap.load dummyClient) w1req)
      dummyPending).client = ArcSwap.load dummyClient ∧
    ArcSwap.load (ClientUpdate.apply w1upd dummyClient) = w1upd.applyState := by
  have h : Client.execute_request (ArcSwap.load dummyClient) w1req =
      .request
        (pendingStateOf (Client.execute_request (ArcSwap.load dummyClient) w1req) dummyPending)
        (pendingInnerOf (Client.execute_request (ArcSwap.load dummyClient) w1req) dummyInner) :=
    rfl
  have hc := claim1_snapshot_isolation dummyClient w1upd w1req w1req _ _ h
  exact ⟨hc.1, hc.2.2.2.1⟩

/-- C2: the in-place HTTP/2 retry happens exactly for a remote GOAWAY with
reason NO_ERROR or a remote RST_STREAM with reason REFUSED_STREAM, with a
reusable body snapshot, while fewer than `http2_max_retry_count` (default 2)
retries have occurred; any other outcome surfaces the transport error at
once, and a retry rebuilds the request from the snapshot and bumps the
counter. -/
theorem claim2_http2_retry (s : PendingRequest) (err : TransportError)
    (hu : (try_uri s.url).isSome = true) :
    ((PendingRequest.retry_error s err).1.isSome = true ↔
      ((∃ e : H2Error,
          err.source = some { cause := some (.h2 e) } ∧
          ((e.is_go_away = true ∧ e.is_remote = true ∧ e.reason = some .NO_ERROR) ∨
           (e.is_reset = true ∧ e.is_remote = true ∧ e.reason = some .REFUSED_STREAM))) ∧
       s.body ≠ some none ∧
       s.http2_retry_count < s.http2_max_retry_count)) ∧
    ClientBuilder.new.http2_max_retry_count = 2 ∧
    ((PendingRequest.retry_error s err).1 = none →
      pollStep s (.transportError err) = .failed (.transport err s.url)) ∧
    (∀ req s2, PendingRequest.retry_error s err = (some req, s2) →
      pollStep s (.transportError err) = .retry s2 req ∧
      req.method = s.method ∧ req.headers = s.headers ∧
      req.body = (match s.body with
                  | some (some b) => Body.reusable b
                  | _ => Body.empty) ∧
      s2.http2_retry_count = s.http2_retry_count + 1) := by
  refine ⟨?_, rfl, pollStep_transport_surfaced s err, ?_⟩
  · rw [retry_error_isSome_iff s err hu, is_retryable_error_iff]
  · intro req s2 hres
    obtain ⟨h1, h2, _, h4, h5⟩ := retry_error_rebuild s err req s2 hres
    exact ⟨pollStep_transport_retry s err req s2 hres, h1, h2, h4, h5⟩

def w2err : TransportError :=
  { source := some { cause := some (.h2
      { is_go_away := true, is_reset := false, is_remote := true,
        reason := some .NO_ERROR }) } }

/-- Witness for C2: a remote GOAWAY(NO_ERROR) with an absent (hence
trivially reusable) body and counter 0 of 2 is retried. -/
theorem claim2_witness :
    (PendingRequest.retry_error dummyPending w2err).1.isSome = true ∧
    ClientBuilder.new.http2_max_retry_count = 2 := by
  have hc := claim2_http2_retry dummyPending w2err rfl
  refine ⟨hc.1.mpr ⟨⟨_, rfl, Or.inl ⟨rfl, rfl, rfl⟩⟩, by decide, by decide⟩, hc.2.1⟩

/-- C7: the total and read deadlines are checked independently at the top of
every poll — either firing yields `TimedOut` annotated with the request's
URL — and the per-request timeout in the extensions takes precedence over
the client-level defaults when the deadlines are fetched at dispatch. -/
theorem claim7_timeouts (s : PendingRequest) (c : ClientRef) (req : Request)
    (s0 : PendingRequest) (i : InnerRequest)
    (h : Client.execute_request c req = .request s0 i) :
    pollStep s .totalTimeout = .failed (.timedOut s.url) ∧
    pollStep s .readTimeout = .failed (.timedOut s.url) ∧
    s0.total_timeout = req.extensions.timeout.or c.total_timeout ∧
    s0.read_timeout = req.extensions.timeout.or c.read_timeout := by
  obtain ⟨_, _, _, _, _, _, _, _, h9, h10, _, _⟩ := execute_request_inv _ _ _ _ h
  exact ⟨rfl, rfl, h9, h10⟩

def w7client : ClientRef := { dummyClient with total_timeout := some 9, read_timeout := some 7 }

def w7req : Request := { method := .GET, url := dummyUrl, extensions := { timeout := some 5 } }

/-- Witness for C7: with a client default of 9 and a per-request extension
of 5, the fetched total deadline is 5. -/
theorem claim7_witness :
    pollStep dummyPending .totalTimeout = .failed (.timedOut dummyPending.url) ∧
    (pendingStateOf (Client.execute_request w7client w7req) dummyPending).total_timeout = some 5 := by
  have h : Client.execute_request w7client w7req =
      .request (pendingStateOf (Client.execute_request w7client w7req) dummyPending)
        (pendingInnerOf (Client.execute_request w7client w7req) dummyInner) := rfl
  have hc := claim7_timeouts dummyPending w7client w7req _ _ h
  refine ⟨hc.1, ?_⟩
  rw [hc.2.2.1]
  rfl

/-- C3: on a followed 301/302/303 redirect, the next request's body is
dropped, the headers TRANSFER_ENCODING / CONTENT_ENCODING / CONTENT_TYPE /
CONTENT_LENGTH are removed, and the method is coerced to GET unless it was
already GET or HEAD (in which case it is preserved). -/
theorem claim3_redirect_301_303 (s s' : PendingRequest) (r : HttpResponse)
    (req : InnerRequest)
    (hst : r.status = 301 ∨ r.status = 302 ∨ r.status = 303)
    (h : pollStep s (.response r) = .redirect s' req) :
    req.method = (if s.method = Method.GET ∨ s.method = Method.HEAD then s.method
                  else Method.GET) ∧
    req.body = Body.empty ∧
    HeaderMap.contains_key req.headers TRANSFER_ENCODING = false ∧
    HeaderMap.contains_key req.headers CONTENT_ENCODING = false ∧
    HeaderMap.contains_key req.headers CONTENT_TYPE = false ∧
    HeaderMap.contains_key req.headers CONTENT_LENGTH = false := by
  obtain ⟨loc, hl, hp, hu1, hu2, hc1, hsh, hm, ho, hb, hh⟩ :=
    pollStep_redirect_inv s s' r req h
  have hprep : redirectStatusPrep s r.status =
      (PendingRequest.mk
        (if s.method = Method.GET ∨ s.method = Method.HEAD then s.method else Method.GET)
        s.url (stripPayloadHeaders s.headers) s.headers_order none s.version s.extensions
        s.urls s.http2_retry_count s.http2_max_retry_count s.redirect s.network_scheme
        s.client s.total_timeout s.read_timeout,
       true) := by
    rcases hst with h1 | h1 | h1 <;> rw [h1] <;> simp [redirectStatusPrep]
  rw [hprep] at hm hb hh
  dsimp only at hm hb hh
  refine ⟨hm, hb, ?_, ?_, ?_, ?_⟩
  · rw [hh, cookieStep_contains_other _ _ _ TRANSFER_ENCODING (by decide),
      remove_sensitive_contains_other _ _ _ TRANSFER_ENCODING (by decide) (by decide)
        (by decide) (by decide),
      refererStep_contains_other _ _ _ _ TRANSFER_ENCODING (by decide),
      (stripPayloadHeaders_contains s.headers).1]
  · rw [hh, cookieStep_contains_other _ _ _ CONTENT_ENCODING (by decide),
      remove_sensitive_contains_other _ _ _ CONTENT_ENCODING (by decide) (by decide)
        (by decide) (by decide),
      refererStep_contains_other _ _ _ _ CONTENT_ENCODING (by decide),
      (stripPayloadHeaders_contains s.headers).2.1]
  · rw [hh, cookieStep_contains_other _ _ _ CONTENT_TYPE (by decide),
      remove_sensitive_contains_other _ _ _ CONTENT_TYPE (by decide) (by decide)
        (by decide) (by decide),
      refererStep_contains_other _ _ _ _ CONTENT_TYPE (by decide),
      (stripPayloadHeaders_contains s.headers).2.2.1]
  · rw [hh, cookieStep_contains_other _ _ _ CONTENT_LENGTH (by decide),
      remove_sensitive_contains_other _ _ _ CONTENT_LENGTH (by decide) (by decide)
        (by decide) (by decide),
      refererStep_contains_other _ _ _ _ CONTENT_LENGTH (by decide),
      (stripPayloadHeaders_contains s.headers).2.2.2]

def w3client : ClientRef := { dummyClient with redirect := .limited 10 }

def w3state : PendingRequest :=
  { dummyPending with
    method := .POST, headers := [("content-type", "text/plain")],
    client := w3client, body := some (some [1]) }

def w3resp : HttpResponse := { status := 301, headers := [("location", "/next")] }

/-- Witness for C3: a followed 301 after a POST with a Content-Type header. -/
theorem claim3_witness :
    (stepRequestOf (pollStep w3state (.response w3resp)) dummyInner).method = Method.GET ∧
    (stepRequestOf (pollStep w3state (.response w3resp)) dummyInner).body = Body.empty ∧
    HeaderMap.contains_key
      (stepRequestOf (pollStep w3state (.response w3resp)) dummyInner).headers
      CONTENT_TYPE = false := by
  have h : pollStep w3state (.response w3resp) =
      .redirect (stepStateOf (pollStep w3state (.response w3resp)) dummyPending)
        (stepRequestOf (pollStep w3state (.response w3resp)) dummyInner) := rfl
  have hc := claim3_redirect_301_303 w3state _ w3resp _ (Or.inl rfl) h
  exact ⟨by simp only [hc.1]; rfl, hc.2.1, hc.2.2.2.2.1⟩

/-- C4: a 307/308 response for a request whose body snapshot is non-reusable
(a one-shot stream) is not followed: no further request is issued and the
3xx response itself is handed back. -/
theorem claim4_307_nonreusable (s : PendingRequest) (r : HttpResponse)
    (hst : r.status = 307 ∨ r.status = 308) (hb : s.body = some none) :
    pollStep s (.response r) = .done (finalResponse s r) ∧
    (finalResponse s r).status = r.status ∧
    (finalResponse s r).headers = r.headers ∧
    (finalResponse s r).url = s.url := by
  have hprep : redirectStatusPrep s r.status = (s, false) := by
    rcases hst with h1 | h1 <;> rw [h1] <;> simp [redirectStatusPrep, hb]
  refine ⟨?_, rfl, rfl, rfl⟩
  simp [pollStep, hprep]

def w4state : PendingRequest := { dummyPending with body := some none }

def w4resp : HttpResponse := { status := 307, headers := [("location", "/x")] }

/-- Witness for C4: a 307 with a streaming body is returned to the caller. -/
theorem claim4_witness :
    pollStep w4state (.response w4resp) = .done (finalResponse w4state w4resp) ∧
    (finalResponse w4state w4resp).status = 307 := by
  have hc := claim4_307_nonreusable w4state w4resp (Or.inl rfl) rfl
  exact ⟨hc.1, hc.2.1⟩

/-- C10: a 3xx that would otherwise be followed whose `Location` fails to
resolve (absent, undecodable, join failure, or no valid Uri) is not
redirected: the 3xx response is returned to the caller unchanged instead of
erroring. -/
theorem claim10_invalid_location (s : PendingRequest) (r : HttpResponse)
    (hsr : (redirectStatusPrep s r.status).2 = true)
    (hloc : locationUrl s.url (HeaderMap.get_first r.headers LOCATION) = none) :
    pollStep s (.response r) = .done (finalResponse (redirectStatusPrep s r.status).1 r) ∧
    (finalResponse (redirectStatusPrep s r.status).1 r).status = r.status ∧
    (finalResponse (redirectStatusPrep s r.status).1 r).headers = r.headers := by
  refine ⟨?_, rfl, rfl⟩
  simp only [pollStep]
  rw [if_pos hsr]
  unfold handleRedirect
  rw [redirectStatusPrep_url, hloc]

def w10resp : HttpResponse := { status := 302, headers := [] }

/-- Witness for C10: a 302 without a `Location` header is handed back. -/
theorem claim10_witness :
    pollStep dummyPending (.response w10resp) =
      .done (finalResponse (redirectStatusPrep dummyPending w10resp.status).1 w10resp) ∧
    (finalResponse (redirectStatusPrep dummyPending w10resp.status).1 w10resp).status = 302 := by
  have hc := claim10_invalid_location dummyPending w10resp rfl rfl
  exact ⟨hc.1, hc.2.1⟩

/-- C5: on a followed redirect whose next URL has a different origin
(scheme, host or port), the headers Authorization, Cookie,
Proxy-Authorization and WWW-Authenticate are stripped from the next
request; the next request's Cookie values are exactly the ones the cookie
store holds for the new URL (none when no store is attached). -/
theorem claim5_cross_origin (s s' : PendingRequest) (r : HttpResponse) (req : InnerRequest)
    (h : pollStep s (.response r) = .redirect s' req)
    (hx : redirect.crossOrigin s'.url s.url = true) :
    HeaderMap.contains_key req.headers AUTHORIZATION = false ∧
    HeaderMap.contains_key req.headers PROXY_AUTHORIZATION = false ∧
    HeaderMap.contains_key req.headers WWW_AUTHENTICATE = false ∧
    HeaderMap.get_all req.headers COOKIE =
      (match s.client.cookie_store with
       | some store => (store.cookies s'.url).getD []
       | none => []) := by
  obtain ⟨loc, hl, hp, hu1, hu2, hc1, hsh, hm, ho, hb, hh⟩ :=
    pollStep_redirect_inv s s' r req h
  subst hu1
  refine ⟨?_, ?_, ?_, ?_⟩
  · rw [hh, cookieStep_contains_other _ _ _ AUTHORIZATION (by decide),
      remove_sensitive_headers_last, if_pos hx,
      contains_key_remove_other _ AUTHORIZATION WWW_AUTHENTICATE (by decide),
      contains_key_remove_other _ AUTHORIZATION PROXY_AUTHORIZATION (by decide),
      contains_key_remove_other _ AUTHORIZATION COOKIE (by decide),
      contains_key_remove_self]
  · rw [hh, cookieStep_contains_other _ _ _ PROXY_AUTHORIZATION (by decide),
      remove_sensitive_headers_last, if_pos hx,
      contains_key_remove_other _ PROXY_AUTHORIZATION WWW_AUTHENTICATE (by decide),
      contains_key_remove_self]
  · rw [hh, cookieStep_contains_other _ _ _ WWW_AUTHENTICATE (by decide),
      remove_sensitive_headers_last, if_pos hx,
      contains_key_remove_self]
  · rw [hh, cookieStep_get_all, remove_sensitive_headers_last, if_pos hx,
      get_all_remove_other _ COOKIE WWW_AUTHENTICATE (by decide),
      get_all_remove_other _ COOKIE PROXY_AUTHORIZATION (by decide),
      get_all_remove_self]
    rfl

def w5client : ClientRef :=
  { dummyClient with
    redirect := .limited 10,
    cookie_store := some (CookieStore.mk (fun _ => some ["n=1"])) }

def w5state : PendingRequest :=
  { dummyPending with
    headers := [("authorization", "secret"), ("cookie", "k=v")],
    client := w5client }

def w5resp : HttpResponse :=
  { status := 302, headers := [("location", "https://other.example/x")] }

/-- Witness for C5: a cross-origin 302 drops the Authorization header and
replaces the Cookie values by the store's cookies for the new URL. -/
theorem claim5_witness :
    redirect.crossOrigin
      (stepStateOf (pollStep w5state (.response w5resp)) dummyPending).url
      w5state.url = true ∧
    HeaderMap.contains_key
      (stepRequestOf (pollStep w5state (.response w5resp)) dummyInner).headers
      AUTHORIZATION = false ∧
    HeaderMap.get_all
      (stepRequestOf (pollStep w5state (.response w5resp)) dummyInner).headers
      COOKIE = ["n=1"] := by
  have h : pollStep w5state (.response w5resp) =
      .redirect (stepStateOf (pollStep w5state (.response w5resp)) dummyPending)
        (stepRequestOf (pollStep w5state (.response w5resp)) dummyInner) := rfl
  have hc := claim5_cross_origin w5state _ w5resp _ h rfl
  refine ⟨rfl, hc.1, ?_⟩
  rw [hc.2.2.2]
  rfl

def c6client : ClientRef := Config.build ClientBuilder.new

def c6url : Url := { scheme := "http", host := "a.example", path := "/a" }

def c6state : PendingRequest :=
  { dummyPending with url := c6url, client := c6client }

def c6resp : HttpResponse :=
  { status := 301, headers := [("location", "http://a.example/next")] }

def c6loc : Url := { scheme := "http", host := "a.example", path := "/next" }

/-- C6, evaluated at the failing input: the builder default is
`redirect::Policy::none()` (src/client/client.rs 220), so a client with no
configured redirect policy does NOT follow a followable 301 — the response
is returned to the caller — although the builder's own documentation
(src/client/client.rs 687, "Default will follow redirects up to a maximum
of 10") and the spec promise a 10-hop default. -/
theorem claim6_default_policy_divergence :
    ClientBuilder.new.redirect_policy = redirect.Policy.none ∧
    locationUrl c6state.url (HeaderMap.get_first c6resp.headers LOCATION) = some c6loc ∧
    redirect.Policy.check redirect.Policy.none 301 Method.GET c6loc Method.GET [c6url] =
      redirect.ActionKind.stop ∧
    pollStep c6state (.response c6resp) =
      .done { status := 301, headers := c6resp.headers, url := c6url,
              accepts := Accepts.defaultAccepts, read_timeout := none } :=
  ⟨rfl, rfl, rfl, rfl⟩

def c8store : CookieStore := CookieStore.mk (fun _ => some ["k=v"])

def c8client : ClientRef :=
  { dummyClient with
    cookie_store := some c8store, redirect := .limited 10, referer := false }

def c8state : PendingRequest :=
  { dummyPending with headers := [(COOKIE, "k=v")], client := c8client }

def c8resp : HttpResponse := { status := 301, headers := [(LOCATION, "/b")] }

def c8loc : Url := { scheme := "http", host := "a.example", path := "/b" }

def c8req : InnerRequest :=
  { uri := c8loc, method := .GET, headers := [(COOKIE, "k=v"), (COOKIE, "k=v")],
    headers_order := none, version := none, extensions := {},
    network_scheme := .defaultScheme, body := .empty }

def c8stateAfter : PendingRequest :=
  { c8state with
    url := c8loc, urls := [dummyUrl],
    headers := [(COOKIE, "k=v"), (COOKIE, "k=v")] }

/-- C8 counterexample: on a followed same-origin redirect the Cookie header
of the previous hop IS carried to the next request, and the store's cookies
for the new URL are appended unconditionally on top of it — the next
request carries the cookie twice, although the store holds it once. -/
theorem claim8_counterexample :
    pollStep c8state (.response c8resp) = .redirect c8stateAfter c8req ∧
    HeaderMap.get_all c8req.headers COOKIE = ["k=v", "k=v"] ∧
    (c8store.cookies c8loc).getD [] = ["k=v"] :=
  ⟨rfl, rfl, rfl⟩

/-- C8 (amended): with a store attached, cookies are appended at dispatch
exactly when the request carries no Cookie header; every response's
Set-Cookie values are offered to the store for the current URL; on a
followed redirect the store's cookies for the new URL are appended
unconditionally, and the previous hop's Cookie headers are carried over
unless the redirect is cross-origin (where they are stripped first). -/
theorem claim8_cookie_layer (s s' : PendingRequest) (r : HttpResponse)
    (req : InnerRequest) (store : CookieStore) (headers : HeaderMap) (url : Url) :
    (HeaderMap.contains_key headers COOKIE = false →
      cookieInitialStep (some store) headers url = add_cookie_header store headers url) ∧
    (HeaderMap.contains_key headers COOKIE = true →
      cookieInitialStep (some store) headers url = headers) ∧
    (s.client.cookie_store = some store →
      HeaderMap.get_all r.headers SET_COOKIE ≠ [] →
      responseCookieWrite s r = some (HeaderMap.get_all r.headers SET_COOKIE, s.url)) ∧
    (pollStep s (.response r) = .redirect s' req →
      HeaderMap.get_all req.headers COOKIE =
        (if redirect.crossOrigin s'.url s.url then []
         else HeaderMap.get_all s.headers COOKIE) ++
          (match s.client.cookie_store with
           | some st => (st.cookies s'.url).getD []
           | none => [])) := by
  refine ⟨?_, ?_, ?_, ?_⟩
  · intro hck
    simp [cookieInitialStep, hck]
  · intro hck
    simp [cookieInitialStep, hck]
  · intro hst hne
    simp [responseCookieWrite, hst, List.isEmpty_iff, hne]
  · intro h2
    obtain ⟨loc, hl, hp, hu1, hu2, hc1, hsh, hm, ho, hb, hh⟩ :=
      pollStep_redirect_inv s s' r req h2
    subst hu1
    rw [hh, cookieStep_get_all, remove_sensitive_headers_last]
    by_cases hx : redirect.crossOrigin s'.url s.url = true
    · rw [if_pos hx, if_pos hx,
        get_all_remove_other _ COOKIE WWW_AUTHENTICATE (by decide),
        get_all_remove_other _ COOKIE PROXY_AUTHORIZATION (by decide),
        get_all_remove_self]
    · rw [if_neg hx, if_neg hx,
        refererStep_get_all_other _ _ _ _ COOKIE (by decide),
        redirectStatusPrep_get_all_cookie]

/-- Witness for C8 (amended), at the counterexample scenario: the initial
attach on an empty header map, and the same-origin carry-plus-append. -/
theorem claim8_witness :
    cookieInitialStep (some c8store) [] dummyUrl = add_cookie_header c8store [] dummyUrl ∧
    HeaderMap.get_all c8req.headers COOKIE =
      (if redirect.crossOrigin c8stateAfter.url c8state.url then []
       else HeaderMap.get_all c8state.headers COOKIE) ++
        ((c8store.cookies c8stateAfter.url).getD []) := by
  have hc := claim8_cookie_layer c8state c8stateAfter c8resp c8req c8store [] dummyUrl
  refine ⟨hc.1 rfl, ?_⟩
  have h4 := hc.2.2.2 rfl
  rw [h4]
  rfl

/-- C9: when at least one decoder is enabled, the `Accept-Encoding` header
naming the enabled decoders is inserted exactly when the request carries
neither `Accept-Encoding` nor `Range`; otherwise the headers are left
unchanged.  (`execute_request` runs this step only for requests that permit
compression.) -/
theorem claim9_accept_encoding (accepts : Accepts) (headers : HeaderMap) (v : String)
    (hv : accepts.as_str = some v) :
    (HeaderMap.contains_key headers ACCEPT_ENCODING = false →
      HeaderMap.contains_key headers RANGE = false →
      add_accpet_encoding_header accepts headers = HeaderMap.insert headers ACCEPT_ENCODING v ∧
      HeaderMap.contains_key (add_accpet_encoding_header accepts headers) ACCEPT_ENCODING
        = true) ∧
    (HeaderMap.contains_key headers ACCEPT_ENCODING = true ∨
        HeaderMap.contains_key headers RANGE = true →
      add_accpet_encoding_header accepts headers = headers) := by
  constructor
  · intro h1 h2
    have he : add_accpet_encoding_header accepts headers =
        HeaderMap.insert headers ACCEPT_ENCODING v := by
      simp [add_accpet_encoding_header, hv, h1, h2]
    exact ⟨he, by rw [he, contains_key_insert_self]⟩
  · intro h12
    rcases h12 with h1 | h1 <;> simp [add_accpet_encoding_header, hv, h1]

/-- Witness for C9: with every decoder enabled and no conflicting headers,
the header is inserted; with a `Range` header present, nothing changes. -/
theorem claim9_witness :
    add_accpet_encoding_header Accepts.defaultAccepts [] =
      HeaderMap.insert [] ACCEPT_ENCODING "gzip, br, zstd, deflate" ∧
    add_accpet_encoding_header Accepts.defaultAccepts [(RANGE, "bytes=0-1")] =
      [(RANGE, "bytes=0-1")] := by
  have hc := claim9_accept_encoding Accepts.defaultAccepts [] "gzip, br, zstd, deflate" rfl
  have hc2 := claim9_accept_encoding Accepts.defaultAccepts [(RANGE, "bytes=0-1")]
    "gzip, br, zstd, deflate" rfl
  exact ⟨(hc.1 rfl rfl).1, hc2.2 (Or.inr rfl)⟩

end Rquest
